import Mathlib

/-!
Verification development for the policy-reduce pipeline.

The repository declares two SQS queues with dead-letter queues, a scheduled
EventBridge rule feeding the scraper queue, Lambda workers consuming each
queue with batch size 1, CloudWatch metric filters and alarms, and IAM
grants.  The configuration values below are embedded directly from the
source files (src/cdk/core_stack.ts, src/unnamed/part_000,
src/unnamed/part_001).  The delivery and failure-handling dynamics of the
managed queue and alarm services are not part of the source tree; they are
modelled from the specification where needed, and each such definition is
marked accordingly.
-/

namespace PolicyReduce

/-- Dead-letter queue configuration, from the sqs.Queue declarations used as
deadLetterQueue.queue in the source. -/
structure DeadLetterQueueConfig where
  queueName : String
  retentionPeriodDays : Nat
deriving DecidableEq, Repr

/-- Queue configuration, from the sqs.Queue declarations in the source:
visibilityTimeout, deadLetterQueue.maxReceiveCount, deadLetterQueue.queue. -/
structure QueueConfig where
  visibilityTimeoutSeconds : Nat
  maxReceiveCount : Nat
  deadLetterQueue : DeadLetterQueueConfig
deriving DecidableEq, Repr

/-- The nlp queue, from src/cdk/core_stack.ts lines 50-59:
visibilityTimeout = Duration.seconds(60*15), maxReceiveCount = 2,
DLQ named nlpSQSQueue_DLQ with retentionPeriod = Duration.days(14). -/
def nlpSQSQueue : QueueConfig :=
  { visibilityTimeoutSeconds := 60 * 15
    maxReceiveCount := 2
    deadLetterQueue :=
      { queueName := "nlpSQSQueue_DLQ"
        retentionPeriodDays := 14 } }

/-- The scraper queue, from src/unnamed/part_001 lines 31-41:
visibilityTimeout = Duration.seconds(60*30), maxReceiveCount = 5,
DLQ named PolicyReduceScraperQueue_DLQ with retentionPeriod = Duration.days(14). -/
def scraperSQSQueue : QueueConfig :=
  { visibilityTimeoutSeconds := 60 * 30
    maxReceiveCount := 5
    deadLetterQueue :=
      { queueName := "PolicyReduceScraperQueue_DLQ"
        retentionPeriodDays := 14 } }

/-- Lambda worker configuration, from the lambda.DockerImageFunction
declarations in the source. -/
structure LambdaConfig where
  timeoutSeconds : Nat
  memorySize : Nat
deriving DecidableEq, Repr

/-- The NLP worker, from src/unnamed/part_000 lines 30-48:
timeout = Duration.minutes(15), memorySize = 2048. -/
def PolicyReduceNlpFunction : LambdaConfig :=
  { timeoutSeconds := 15 * 60, memorySize := 2048 }

/-- The scraper worker, from src/unnamed/part_001 lines 171-193:
timeout = Duration.minutes(15), memorySize = 1024. -/
def PolicyReduceScraperFunction : LambdaConfig :=
  { timeoutSeconds := 15 * 60, memorySize := 1024 }

/-- Event-source configuration, from the SqsEventSource declarations. -/
structure SqsEventSourceConfig where
  batchSize : Nat
deriving DecidableEq, Repr

/-- Event source wiring the scraper queue to the scraper worker, from
src/unnamed/part_001 lines 219-223: batchSize = 1. -/
def scraperEventSource : SqsEventSourceConfig := { batchSize := 1 }

/-- Event source wiring the nlp queue to the NLP worker, from
src/unnamed/part_000 lines 101-105: batchSize = 1. -/
def nlpEventSource : SqsEventSourceConfig := { batchSize := 1 }

/-- Modelled from the spec: the state of a single message with respect to its
source queue.  The redelivery and dead-letter relocation algorithm of the
managed queue service is not in the source tree; the spec describes a message
as visible (pending), leased with a visibility deadline (inflight),
acknowledged and removed (acked), or relocated to the dead-letter queue
(dead).  deliveryCount counts the deliveries so far. -/
inductive MsgState where
  | pending (deliveryCount : Nat)
  | inflight (deliveryCount : Nat) (deadline : Nat)
  | acked
  | dead
deriving DecidableEq, Repr

/-- Modelled from the spec: one time step of the lifecycle of a single message
under a prompt consumer.  A visible message is received at once: its delivery
count increments and it becomes invisible until time t plus the visibility
timeout, unless the incremented count would exceed maxReceiveCount, in which
case it is relocated to the dead-letter queue instead of being delivered.  A
leased message may be acknowledged before its deadline; at the deadline an
unacknowledged lease expires and the message is promptly received again (or
relocated when its count would exceed the bound).  Acknowledged and
dead-lettered are terminal. -/
def Next (cfg : QueueConfig) (t : Nat) : MsgState → MsgState → Prop :=
  fun s1 s2 =>
    match s1 with
    | .pending d =>
        if d < cfg.maxReceiveCount then
          s2 = .inflight (d + 1) (t + cfg.visibilityTimeoutSeconds)
        else
          s2 = .dead
    | .inflight d dl =>
        if t + 1 < dl then
          s2 = .inflight d dl ∨ s2 = .acked
        else
          s2 = .acked ∨
            (if d < cfg.maxReceiveCount then
              s2 = .inflight (d + 1) (dl + cfg.visibilityTimeoutSeconds)
            else
              s2 = .dead)
    | .acked => s2 = .acked
    | .dead => s2 = .dead

/-- Modelled from the spec: a trace of the lifecycle of one message, enqueued
at time 0 with delivery count 0, evolving by Next at every step. -/
def MsgTrace (cfg : QueueConfig) (σ : Nat → MsgState) : Prop :=
  σ 0 = .pending 0 ∧ ∀ t, Next cfg t (σ t) (σ (t + 1))

/-- Invariant carried along a trace: the message is terminal, or it is
inflight with a positive delivery count bounded by maxReceiveCount and a
deadline bounded by deliveryCount times the visibility timeout that has not
yet elapsed, or time is 0 and the message is still pending. -/
def Inv (cfg : QueueConfig) (σ : Nat → MsgState) (t : Nat) : Prop :=
  σ t = .acked ∨ σ t = .dead ∨
    (∃ d dl, σ t = .inflight d dl ∧ 1 ≤ d ∧ d ≤ cfg.maxReceiveCount ∧
      dl ≤ d * cfg.visibilityTimeoutSeconds ∧ t < dl) ∨
    (t = 0 ∧ σ t = .pending 0)

theorem inv_holds (cfg : QueueConfig) (σ : Nat → MsgState)
    (hm : 1 ≤ cfg.maxReceiveCount) (hv : 2 ≤ cfg.visibilityTimeoutSeconds)
    (htr : MsgTrace cfg σ) : ∀ t, Inv cfg σ t := by
  intro t
  induction t with
  | zero => exact Or.inr (Or.inr (Or.inr ⟨rfl, htr.1⟩))
  | succ n ih =>
    have hnext := htr.2 n
    rcases ih with hA | hD | ⟨d, dl, hI, hd1, hdm, hdl, hlt⟩ | ⟨hn0, hP⟩
    · rw [hA] at hnext
      simp only [Next] at hnext
      exact Or.inl hnext
    · rw [hD] at hnext
      simp only [Next] at hnext
      exact Or.inr (Or.inl hnext)
    · rw [hI] at hnext
      simp only [Next] at hnext
      by_cases hb : n + 1 < dl
      · rw [if_pos hb] at hnext
        rcases hnext with h | h
        · exact Or.inr (Or.inr (Or.inl ⟨d, dl, h, hd1, hdm, hdl, hb⟩))
        · exact Or.inl h
      · rw [if_neg hb] at hnext
        rcases hnext with h | h
        · exact Or.inl h
        · by_cases hdmax : d < cfg.maxReceiveCount
          · rw [if_pos hdmax] at h
            refine Or.inr (Or.inr (Or.inl
              ⟨d + 1, dl + cfg.visibilityTimeoutSeconds, h, ?_, ?_, ?_, ?_⟩))
            · omega
            · omega
            · calc dl + cfg.visibilityTimeoutSeconds
                  ≤ d * cfg.visibilityTimeoutSeconds + cfg.visibilityTimeoutSeconds :=
                    Nat.add_le_add_right hdl _
                _ = (d + 1) * cfg.visibilityTimeoutSeconds := by ring
            · omega
          · rw [if_neg hdmax] at h
            exact Or.inr (Or.inl h)
    · rw [hP] at hnext
      simp only [Next] at hnext
      rw [if_pos (by omega : 0 < cfg.maxReceiveCount)] at hnext
      refine Or.inr (Or.inr (Or.inl
        ⟨1, n + cfg.visibilityTimeoutSeconds, hnext, le_refl 1, hm, ?_, ?_⟩))
      · subst hn0; simp
      · subst hn0; omega

theorem acked_forever (cfg : QueueConfig) (σ : Nat → MsgState)
    (htr : MsgTrace cfg σ) (t : Nat) (h : σ t = .acked) :
    ∀ k, σ (t + k) = .acked := by
  intro k
  induction k with
  | zero => exact h
  | succ n ih =>
    have hnext := htr.2 (t + n)
    rw [ih] at hnext
    simp only [Next] at hnext
    exact hnext

theorem dead_forever (cfg : QueueConfig) (σ : Nat → MsgState)
    (htr : MsgTrace cfg σ) (t : Nat) (h : σ t = .dead) :
    ∀ k, σ (t + k) = .dead := by
  intro k
  induction k with
  | zero => exact h
  | succ n ih =>
    have hnext := htr.2 (t + n)
    rw [ih] at hnext
    simp only [Next] at hnext
    exact hnext

theorem never_acked_and_dead (cfg : QueueConfig) (σ : Nat → MsgState)
    (htr : MsgTrace cfg σ) : ∀ t u, ¬(σ t = .acked ∧ σ u = .dead) := by
  rintro t u ⟨ha, hd⟩
  rcases Nat.le_total t u with h | h
  · obtain ⟨k, rfl⟩ := Nat.le.dest h
    have := acked_forever cfg σ htr t ha k
    rw [this] at hd
    exact MsgState.noConfusion hd
  · obtain ⟨k, rfl⟩ := Nat.le.dest h
    have := dead_forever cfg σ htr u hd k
    rw [this] at ha
    exact MsgState.noConfusion ha

theorem delivered_le_max (cfg : QueueConfig) (σ : Nat → MsgState)
    (hm : 1 ≤ cfg.maxReceiveCount) (hv : 2 ≤ cfg.visibilityTimeoutSeconds)
    (htr : MsgTrace cfg σ) :
    ∀ t d dl, σ t = .inflight d dl → d ≤ cfg.maxReceiveCount := by
  intro t d dl hI
  rcases inv_holds cfg σ hm hv htr t with hA | hD | ⟨d2, dl2, hI2, _, hdm, _, _⟩ | ⟨_, hP⟩
  · rw [hI] at hA; exact MsgState.noConfusion hA
  · rw [hI] at hD; exact MsgState.noConfusion hD
  · rw [hI] at hI2
    have hd : d = d2 := by
      cases hI2; rfl
    rw [hd]; exact hdm
  · rw [hI] at hP; exact MsgState.noConfusion hP

theorem expired_at_bound_relocates (cfg : QueueConfig) (σ : Nat → MsgState)
    (htr : MsgTrace cfg σ) (t d dl : Nat)
    (hI : σ t = .inflight d dl) (hexp : dl ≤ t + 1)
    (hmax : cfg.maxReceiveCount ≤ d) (hack : σ (t + 1) ≠ .acked) :
    σ (t + 1) = .dead := by
  have hnext := htr.2 t
  rw [hI] at hnext
  simp only [Next] at hnext
  rw [if_neg (by omega)] at hnext
  rcases hnext with h | h
  · exact absurd h hack
  · rw [if_neg (by omega)] at h
    exact h

theorem settled_by_deadline (cfg : QueueConfig) (σ : Nat → MsgState)
    (hm : 1 ≤ cfg.maxReceiveCount) (hv : 2 ≤ cfg.visibilityTimeoutSeconds)
    (htr : MsgTrace cfg σ) :
    σ (cfg.maxReceiveCount * cfg.visibilityTimeoutSeconds) = .acked ∨
      σ (cfg.maxReceiveCount * cfg.visibilityTimeoutSeconds) = .dead := by
  rcases inv_holds cfg σ hm hv htr (cfg.maxReceiveCount * cfg.visibilityTimeoutSeconds)
    with hA | hD | ⟨d, dl, _, _, hdm, hdl, hlt⟩ | ⟨h0, _⟩
  · exact Or.inl hA
  · exact Or.inr hD
  · exfalso
    have h1 : d * cfg.visibilityTimeoutSeconds ≤
        cfg.maxReceiveCount * cfg.visibilityTimeoutSeconds :=
      Nat.mul_le_mul_right _ hdm
    omega
  · exfalso
    have : 0 < cfg.maxReceiveCount * cfg.visibilityTimeoutSeconds :=
      Nat.mul_pos (by omega) (by omega)
    omega

/-- A concrete trace in which the consumer acknowledges its first lease
immediately: enqueued at 0, received at once with deadline vis, acknowledged
at the next step. -/
def promptAckTrace (vis : Nat) : Nat → MsgState
  | 0 => .pending 0
  | 1 => .inflight 1 vis
  | _ + 2 => .acked

theorem promptAckTrace_is_trace (cfg : QueueConfig)
    (hm : 1 ≤ cfg.maxReceiveCount) :
    MsgTrace cfg (promptAckTrace cfg.visibilityTimeoutSeconds) := by
  constructor
  · rfl
  · intro t
    match t with
    | 0 =>
      show Next cfg 0 (.pending 0) (.inflight 1 cfg.visibilityTimeoutSeconds)
      simp only [Next]
      rw [if_pos (by omega)]
      simp
    | 1 =>
      show Next cfg 1 (.inflight 1 cfg.visibilityTimeoutSeconds) (.acked)
      simp only [Next]
      split <;> simp
    | n + 2 =>
      show Next cfg (n + 2) (.acked) (promptAckTrace cfg.visibilityTimeoutSeconds (n + 3))
      simp only [Next]
      rfl

/-- Claim C1: for every queue (scraper-queue and nlp-queue) and every message
in it, whenever the delivery count of the message exceeds the configured
maxReceiveCount of the queue, the message is moved atomically to the
dead-letter queue and removed from the source queue, instead of becoming
visible again.  Formally: along any trace, a message held by the source queue
never has a delivery count exceeding maxReceiveCount, and when a lease at the
bound expires unacknowledged the next state is the dead-letter state, never a
visible or leased one. -/
theorem claimC1_exceeded_count_relocates_to_dlq :
    ∀ cfg ∈ [nlpSQSQueue, scraperSQSQueue], ∀ σ : Nat → MsgState, MsgTrace cfg σ →
      (∀ t d dl, σ t = .inflight d dl → d ≤ cfg.maxReceiveCount) ∧
      (∀ t d dl, σ t = .inflight d dl → dl ≤ t + 1 →
        cfg.maxReceiveCount ≤ d → σ (t + 1) ≠ .acked → σ (t + 1) = .dead) := by
  intro cfg hcfg σ htr
  simp only [List.mem_cons, List.not_mem_nil, or_false] at hcfg
  have hmv : 1 ≤ cfg.maxReceiveCount ∧ 2 ≤ cfg.visibilityTimeoutSeconds := by
    rcases hcfg with rfl | rfl <;> exact ⟨by decide, by decide⟩
  refine ⟨delivered_le_max cfg σ hmv.1 hmv.2 htr, ?_⟩
  intro t d dl hI hexp hmax hack
  exact expired_at_bound_relocates cfg σ htr t d dl hI hexp hmax hack

theorem claimC1_witness :
    (1 : Nat) ≤ nlpSQSQueue.maxReceiveCount :=
  (claimC1_exceeded_count_relocates_to_dlq nlpSQSQueue (by simp)
    (promptAckTrace nlpSQSQueue.visibilityTimeoutSeconds)
    (promptAckTrace_is_trace nlpSQSQueue (by decide))).1
    1 1 nlpSQSQueue.visibilityTimeoutSeconds rfl

/-- Claim C2: the retry budget (maxReceiveCount) of the nlp-queue is 2 and
that of the scraper-queue is 5, the nlp bound being strictly smaller; and for
each queue a message that is received and never acknowledged is delivered at
most that bound of times before dead-lettering: along any trace the delivery
count of a leased message never exceeds the configured bound. -/
theorem claimC2_retry_budgets :
    nlpSQSQueue.maxReceiveCount = 2 ∧ scraperSQSQueue.maxReceiveCount = 5 ∧
    nlpSQSQueue.maxReceiveCount < scraperSQSQueue.maxReceiveCount ∧
    (∀ cfg ∈ [nlpSQSQueue, scraperSQSQueue], ∀ σ : Nat → MsgState, MsgTrace cfg σ →
      ∀ t d dl, σ t = .inflight d dl → d ≤ cfg.maxReceiveCount) := by
  refine ⟨rfl, rfl, by decide, ?_⟩
  intro cfg hcfg σ htr
  simp only [List.mem_cons, List.not_mem_nil, or_false] at hcfg
  rcases hcfg with rfl | rfl
  · exact delivered_le_max _ σ (by decide) (by decide) htr
  · exact delivered_le_max _ σ (by decide) (by decide) htr

theorem claimC2_witness :
    (1 : Nat) ≤ scraperSQSQueue.maxReceiveCount :=
  claimC2_retry_budgets.2.2.2 scraperSQSQueue (by simp)
    (promptAckTrace scraperSQSQueue.visibilityTimeoutSeconds)
    (promptAckTrace_is_trace scraperSQSQueue (by decide))
    1 1 scraperSQSQueue.visibilityTimeoutSeconds rfl

/-- Claim C3: for every message enqueued into either queue, the message is,
by maxReceiveCount times the visibility timeout after enqueue, either
acknowledged or relocated to the dead-letter queue of that queue, and never
both.  Formally: along any trace of the prompt-consumer lifecycle model the
state at time maxReceiveCount * visibilityTimeout is acked or dead, and no
trace is ever both acked and dead. -/
theorem claimC3_settled_within_bound_never_both :
    ∀ cfg ∈ [nlpSQSQueue, scraperSQSQueue], ∀ σ : Nat → MsgState, MsgTrace cfg σ →
      (σ (cfg.maxReceiveCount * cfg.visibilityTimeoutSeconds) = .acked ∨
        σ (cfg.maxReceiveCount * cfg.visibilityTimeoutSeconds) = .dead) ∧
      (∀ t u, ¬(σ t = .acked ∧ σ u = .dead)) := by
  intro cfg hcfg σ htr
  simp only [List.mem_cons, List.not_mem_nil, or_false] at hcfg
  rcases hcfg with rfl | rfl
  · exact ⟨settled_by_deadline _ σ (by decide) (by decide) htr,
      never_acked_and_dead _ σ htr⟩
  · exact ⟨settled_by_deadline _ σ (by decide) (by decide) htr,
      never_acked_and_dead _ σ htr⟩

theorem claimC3_witness :
    promptAckTrace nlpSQSQueue.visibilityTimeoutSeconds
      (nlpSQSQueue.maxReceiveCount * nlpSQSQueue.visibilityTimeoutSeconds) = .acked ∨
    promptAckTrace nlpSQSQueue.visibilityTimeoutSeconds
      (nlpSQSQueue.maxReceiveCount * nlpSQSQueue.visibilityTimeoutSeconds) = .dead :=
  (claimC3_settled_within_bound_never_both nlpSQSQueue (by simp)
    (promptAckTrace nlpSQSQueue.visibilityTimeoutSeconds)
    (promptAckTrace_is_trace nlpSQSQueue (by decide))).1

/-- Modelled from the spec: receive returns at most max_batch currently
visible messages; the dispatch to a worker delivers the batch.  The managed
event-source dispatch loop is not in the source tree; only its batchSize
configuration is. -/
def receiveBatch (batchSize : Nat) (visible : List α) : List α :=
  visible.take batchSize

/-- Claim C4: for both the scraper stage and the NLP stage the event source
is configured with batch size 1, so every receive/dispatch delivers at most
one message per call and a poison message can never share a batch with
another message. -/
theorem claimC4_batch_size_one :
    scraperEventSource.batchSize = 1 ∧ nlpEventSource.batchSize = 1 ∧
    (∀ visible : List String,
      (receiveBatch scraperEventSource.batchSize visible).length ≤ 1) ∧
    (∀ visible : List String,
      (receiveBatch nlpEventSource.batchSize visible).length ≤ 1) := by
  refine ⟨rfl, rfl, ?_, ?_⟩ <;>
    · intro visible
      exact List.length_take_le 1 visible

theorem claimC4_witness :
    (receiveBatch scraperEventSource.batchSize ["a", "b", "c"]).length ≤ 1 :=
  claimC4_batch_size_one.2.2.1 ["a", "b", "c"]

/-- A cron schedule as configured through events.Schedule.cron in the source:
a field is none when the source leaves it at its wildcard default. -/
structure CronScheduleConfig where
  minute : Option Nat
  hour : Option Nat
  day : Option Nat
  month : Option Nat
  year : Option Nat
deriving DecidableEq, Repr

/-- The scraper schedule rule, from src/unnamed/part_001 lines 54-61:
Schedule.cron with minute 0, hour 10, month and year wildcards, day left at
its default wildcard. -/
def scraperRuleSchedule : CronScheduleConfig :=
  { minute := some 0, hour := some 10, day := none, month := none, year := none }

/-- A cron field matches a value when it is a wildcard or equals it. -/
def fieldMatches : Option Nat → Nat → Bool
  | none, _ => true
  | some v, x => x == v

/-- Modelled from the spec: the rule fires at the minute-of-hour and
hour-of-day instants matched by its cron fields (the managed scheduler is
not in the source tree; only the cron configuration is). -/
def cronFiresAt (c : CronScheduleConfig) (minute hour : Nat) : Bool :=
  fieldMatches c.minute minute && fieldMatches c.hour hour

/-- The fixed trigger payload handed to the SqsQueue target, from
src/unnamed/part_001 lines 63-69: an object with the single field
action = e_ingest. -/
def messagePayload : List (String × String) := [("action", "e_ingest")]

/-- A message held by the modelled queue, carrying its payload. -/
structure QueuedMessage where
  payload : List (String × String)
deriving DecidableEq, Repr

/-- Modelled from the spec: each fire of the schedule rule enqueues exactly
one new message carrying the fixed payload at the back of the scraper queue,
regardless of the existing backlog. -/
def fireScraperRule (backlog : List QueuedMessage) : List QueuedMessage :=
  backlog ++ [⟨messagePayload⟩]

/-- Claim C5: the scheduler fires at exactly one cron-defined instant per day
(minute 0, hour 10 — a daily cadence), each fire enqueues exactly one new
message whose payload is the literal object with action = e_ingest, and the
fire is independent of the existing backlog: the backlog is preserved and
never suppresses or merges the new trigger message. -/
theorem claimC5_scheduler_one_message_per_fire :
    (∀ minute hour, cronFiresAt scraperRuleSchedule minute hour = true ↔
      minute = 0 ∧ hour = 10) ∧
    (∀ backlog, (fireScraperRule backlog).length = backlog.length + 1) ∧
    (∀ backlog, (fireScraperRule backlog).getLast? = some ⟨messagePayload⟩) ∧
    (∀ backlog, (fireScraperRule backlog).take backlog.length = backlog) ∧
    messagePayload = [("action", "e_ingest")] := by
  refine ⟨?_, ?_, ?_, ?_, rfl⟩
  · intro minute hour
    simp [cronFiresAt, scraperRuleSchedule, fieldMatches, and_comm]
  · intro backlog
    simp [fireScraperRule]
  · intro backlog
    simp [fireScraperRule]
  · intro backlog
    simp [fireScraperRule, List.take_append]

theorem claimC5_witness :
    cronFiresAt scraperRuleSchedule 0 10 = true ↔ (0 : Nat) = 0 ∧ (10 : Nat) = 10 :=
  claimC5_scheduler_one_message_per_fire.1 0 10

/-- Comparison operator of a CloudWatch alarm as used in the source. -/
inductive Comparison where
  | geThreshold
  | gtThreshold
deriving DecidableEq, Repr

/-- Alarm configuration, from the cloudwatch.Alarm declarations. -/
structure AlarmConfig where
  threshold : Nat
  evaluationPeriods : Nat
  comparison : Comparison
deriving DecidableEq, Repr

/-- The scraper error alarm, from src/unnamed/part_001 lines 91-97:
threshold 1, evaluationPeriods 1, GREATER_THAN_OR_EQUAL_TO_THRESHOLD. -/
def ErrorAlarm : AlarmConfig :=
  { threshold := 1, evaluationPeriods := 1, comparison := .geThreshold }

/-- The NLP worker failure alarm, from src/unnamed/part_000 lines 56-62:
threshold 1, evaluationPeriods 1, GREATER_THAN_OR_EQUAL_TO_THRESHOLD. -/
def NlpLambdaFailureAlarm : AlarmConfig :=
  { threshold := 1, evaluationPeriods := 1, comparison := .geThreshold }

/-- Whether an observed aggregate value breaches the alarm threshold under
the configured comparison operator. -/
def breaches (a : AlarmConfig) (value : Nat) : Bool :=
  match a.comparison with
  | .geThreshold => a.threshold ≤ value
  | .gtThreshold => a.threshold < value

/-- Modelled from the spec: the two-state alarm machine.  The notification
dispatch semantics of the managed alarm service is not in the source tree;
the spec describes an OK/ALARM machine that notifies exactly on the OK to
ALARM transition. -/
inductive AlarmSt where
  | ok
  | alarm
deriving DecidableEq, Repr

/-- Modelled from the spec: one evaluation of the alarm on an observed value,
returning the new state and whether a notification is dispatched.  A
notification is dispatched exactly when the machine is in OK and the value
breaches the threshold. -/
def alarmStep (a : AlarmConfig) (s : AlarmSt) (v : Nat) : AlarmSt × Bool :=
  ((if breaches a v then .alarm else .ok), s == .ok && breaches a v)

/-- Number of notifications dispatched over a sequence of observed values,
starting from a given alarm state. -/
def notificationCount (a : AlarmConfig) (s : AlarmSt) : List Nat → Nat
  | [] => 0
  | v :: vs =>
      (if (alarmStep a s v).2 then 1 else 0) +
        notificationCount a (alarmStep a s v).1 vs

theorem notificationCount_alarm_all_breach (a : AlarmConfig) :
    ∀ vs : List Nat, (∀ v ∈ vs, breaches a v = true) →
      notificationCount a .alarm vs = 0 := by
  intro vs
  induction vs with
  | nil => intro _; rfl
  | cons v vs ih =>
    intro h
    have hv : breaches a v = true := h v (List.mem_cons_self v vs)
    simp only [notificationCount, alarmStep, hv]
    simpa using ih fun w hw => h w (List.mem_cons_of_mem v hw)

theorem notificationCount_ok_all_breach (a : AlarmConfig) :
    ∀ vs : List Nat, vs ≠ [] → (∀ v ∈ vs, breaches a v = true) →
      notificationCount a .ok vs = 1 := by
  intro vs hne h
  match vs with
  | [] => exact absurd rfl hne
  | v :: vs =>
    have hv : breaches a v = true := h v (List.mem_cons_self v vs)
    simp only [notificationCount, alarmStep, hv]
    have h0 := notificationCount_alarm_all_breach a vs
      fun w hw => h w (List.mem_cons_of_mem v hw)
    simp [h0]

theorem notificationCount_alarm_append (a : AlarmConfig) :
    ∀ vs l : List Nat, (∀ v ∈ vs, breaches a v = true) →
      notificationCount a .alarm (vs ++ l) = notificationCount a .alarm l := by
  intro vs
  induction vs with
  | nil => intro l _; rfl
  | cons v vs ih =>
    intro l h
    have hv : breaches a v = true := h v (List.mem_cons_self v vs)
    simp only [List.cons_append, notificationCount, alarmStep, hv]
    simpa using ih l fun w hw => h w (List.mem_cons_of_mem v hw)

/-- Claim C6: for both configured alarms (the scraper error alarm and the NLP
worker failure alarm), the alarm machine dispatches exactly one notification
on an OK to ALARM transition and stays silent while the breach persists; a
second notification is dispatched only after the signal returns below the
threshold and breaches again — edge-triggered, not level-triggered. -/
theorem claimC6_edge_triggered_notifications :
    ∀ a ∈ [ErrorAlarm, NlpLambdaFailureAlarm],
      (∀ vs : List Nat, vs ≠ [] → (∀ v ∈ vs, breaches a v = true) →
        notificationCount a .ok vs = 1) ∧
      (∀ vs ws : List Nat, ∀ r : Nat,
        vs ≠ [] → (∀ v ∈ vs, breaches a v = true) →
        breaches a r = false →
        ws ≠ [] → (∀ w ∈ ws, breaches a w = true) →
        notificationCount a .ok (vs ++ r :: ws) = 2) := by
  intro a _
  constructor
  · exact notificationCount_ok_all_breach a
  · intro vs ws r hvne hv hr hwne hw
    match vs with
    | [] => exact absurd rfl hvne
    | v :: vs =>
      have hv1 : breaches a v = true := hv v (List.mem_cons_self v vs)
      simp only [List.cons_append, notificationCount, alarmStep, hv1]
      rw [if_pos trivial]
      rw [show vs.append (r :: ws) = vs ++ (r :: ws) from rfl]
      rw [notificationCount_alarm_append a vs (r :: ws)
        fun w hwm => hv w (List.mem_cons_of_mem v hwm)]
      simp [notificationCount, alarmStep, hr,
        notificationCount_ok_all_breach a ws hwne hw]

theorem claimC6_witness :
    notificationCount ErrorAlarm .ok [5, 3, 0, 2] = 2 :=
  (claimC6_edge_triggered_notifications ErrorAlarm (by simp)).2
    [5, 3] [2] 0 (by simp) (by decide) (by decide) (by simp) (by decide)

/-- Metric filter configuration, from the logs.MetricFilter declarations:
namespace, metric name, the literal filter pattern text, and the metric
value emitted per matched line. -/
structure MetricFilterConfig where
  metricNamespace : String
  metricName : String
  filterPatternLiteral : String
  metricValue : String
deriving DecidableEq, Repr

/-- The scraper error filter, from src/unnamed/part_001 lines 76-82. -/
def PolicyReduceErrorFilter : MetricFilterConfig :=
  { metricNamespace := "PolicyReduce/Scraper"
    metricName := "Error"
    filterPatternLiteral := "Error"
    metricValue := "1" }

/-- The requery error filter, from src/unnamed/part_001 lines 103-109. -/
def PolicyReduceTotalRequeryErrorFilter : MetricFilterConfig :=
  { metricNamespace := "PolicyReduce/Scraper"
    metricName := "TotalRequeryError"
    filterPatternLiteral := "Logging error"
    metricValue := "1" }

/-- The poll creation error filter, from src/unnamed/part_001 lines 131-137. -/
def PolicyReducePollCreationErrorFilter : MetricFilterConfig :=
  { metricNamespace := "PolicyReduce/Scraper"
    metricName := "PollCreationError"
    filterPatternLiteral := "Error creating eventbridge rule"
    metricValue := "1" }

/-- Whether the pattern occurs as a contiguous run inside the line. -/
def listHasInfix (p : List Char) : List Char → Bool
  | [] => p.isEmpty
  | c :: cs => p.isPrefixOf (c :: cs) || listHasInfix p cs

/-- Whether a log line contains the given literal text as a substring. -/
def strContains (line pat : String) : Bool :=
  listHasInfix pat.toList line.toList

/-- Modelled from the spec: the pattern matcher of the alerting sink matches
a log line exactly when the line contains the literal filter pattern as a
substring (the managed log-filter matching engine is not in the source tree;
only the filter pattern literals are). -/
def matchesFilter (f : MetricFilterConfig) (line : String) : Bool :=
  strContains line f.filterPatternLiteral

/-- Value of a decimal digit character, none for a non-digit. -/
def digitVal (c : Char) : Option Nat :=
  if c.isDigit then some (c.toNat - 48) else none

/-- Parse a run of decimal digits into a number, none on a non-digit. -/
def parseNatAux : List Char → Nat → Option Nat
  | [], acc => some acc
  | c :: cs, acc =>
      match digitVal c with
      | some d => parseNatAux cs (acc * 10 + d)
      | none => none

/-- Parse a nonempty decimal literal. -/
def parseNatLiteral (s : String) : Option Nat :=
  match s.toList with
  | [] => none
  | l => parseNatAux l 0

/-- The numeric metric value a filter emits per matched line, parsed from
its configured metricValue text. -/
def metricValueNat (f : MetricFilterConfig) : Nat :=
  (parseNatLiteral f.metricValue).getD 0

/-- Contribution of one log line to the metric of a filter: the configured
metric value when the line matches, 0 otherwise. -/
def filterContribution (f : MetricFilterConfig) (line : String) : Nat :=
  if matchesFilter f line then metricValueNat f else 0

/-- Claim C7: the three pattern matchers match on exactly the literal texts
Error, Logging error, and Error creating eventbridge rule; each matched line
contributes 1 to the corresponding metric (Error, TotalRequeryError,
PollCreationError respectively); a line containing one of these substrings
raises the corresponding signal, and a line containing none of them
contributes 0 to all three metrics. -/
theorem claimC7_filter_patterns :
    PolicyReduceErrorFilter.filterPatternLiteral = "Error" ∧
    PolicyReduceTotalRequeryErrorFilter.filterPatternLiteral = "Logging error" ∧
    PolicyReducePollCreationErrorFilter.filterPatternLiteral =
      "Error creating eventbridge rule" ∧
    PolicyReduceErrorFilter.metricName = "Error" ∧
    PolicyReduceTotalRequeryErrorFilter.metricName = "TotalRequeryError" ∧
    PolicyReducePollCreationErrorFilter.metricName = "PollCreationError" ∧
    (∀ line, strContains line "Error" = true →
      filterContribution PolicyReduceErrorFilter line = 1) ∧
    (∀ line, strContains line "Logging error" = true →
      filterContribution PolicyReduceTotalRequeryErrorFilter line = 1) ∧
    (∀ line, strContains line "Error creating eventbridge rule" = true →
      filterContribution PolicyReducePollCreationErrorFilter line = 1) ∧
    (∀ line, strContains line "Error" = false →
      strContains line "Logging error" = false →
      strContains line "Error creating eventbridge rule" = false →
      filterContribution PolicyReduceErrorFilter line = 0 ∧
      filterContribution PolicyReduceTotalRequeryErrorFilter line = 0 ∧
      filterContribution PolicyReducePollCreationErrorFilter line = 0) := by
  refine ⟨rfl, rfl, rfl, rfl, rfl, rfl, ?_, ?_, ?_, ?_⟩
  · intro line h
    simp [filterContribution, matchesFilter, PolicyReduceErrorFilter, h, metricValueNat]
    decide
  · intro line h
    simp [filterContribution, matchesFilter, PolicyReduceTotalRequeryErrorFilter, h,
      metricValueNat]
    decide
  · intro line h
    simp [filterContribution, matchesFilter, PolicyReducePollCreationErrorFilter, h,
      metricValueNat]
    decide
  · intro line h1 h2 h3
    refine ⟨?_, ?_, ?_⟩
    · simp [filterContribution, matchesFilter, PolicyReduceErrorFilter, h1]
    · simp [filterContribution, matchesFilter, PolicyReduceTotalRequeryErrorFilter, h2]
    · simp [filterContribution, matchesFilter, PolicyReducePollCreationErrorFilter, h3]

theorem claimC7_witness :
    filterContribution PolicyReduceErrorFilter "Error fetching bill text" = 1 ∧
    filterContribution PolicyReduceTotalRequeryErrorFilter "all documents stored" = 0 :=
  ⟨claimC7_filter_patterns.2.2.2.2.2.2.1 "Error fetching bill text" (by decide),
   (claimC7_filter_patterns.2.2.2.2.2.2.2.2.2 "all documents stored"
     (by decide) (by decide) (by decide)).2.1⟩

/-- Modelled from the spec: dead-letter relocation on queue contents.  The
pair holds the source queue and the dead-letter queue.  Relocating a message
removes it from the source queue and appends it to the dead-letter queue;
relocating a message that is no longer in the source queue is a no-op. -/
def relocate (m : Nat) (p : List Nat × List Nat) : List Nat × List Nat :=
  if m ∈ p.1 then (p.1.erase m, m :: p.2) else p

theorem relocate_idempotent (m : Nat) (src dlq : List Nat)
    (hc : src.count m ≤ 1) :
    relocate m (relocate m (src, dlq)) = relocate m (src, dlq) := by
  by_cases hm : m ∈ src
  · have h1 : relocate m (src, dlq) = (src.erase m, m :: dlq) := by
      simp [relocate, hm]
    rw [h1]
    have hnot : m ∉ src.erase m := by
      intro hmem
      have := List.count_erase_self m src
      have hpos : 0 < (src.erase m).count m := List.count_pos_iff.mpr hmem
      have hcnt : 1 ≤ src.count m := List.count_pos_iff.mpr hm
      omega
    simp [relocate, hnot]
  · simp [relocate, hm]

/-- Claim C8: each dead-letter queue retains messages for 14 days (both DLQ
configurations), a dead-lettered message is never automatically redelivered
(the dead state is absorbing along every trace of either queue), relocation
only appends to the dead-letter store, and relocating an already-relocated
message is a no-op. -/
theorem claimC8_dlq_append_only :
    nlpSQSQueue.deadLetterQueue.retentionPeriodDays = 14 ∧
    scraperSQSQueue.deadLetterQueue.retentionPeriodDays = 14 ∧
    (∀ cfg ∈ [nlpSQSQueue, scraperSQSQueue], ∀ σ : Nat → MsgState, MsgTrace cfg σ →
      ∀ t, σ t = .dead → ∀ k, σ (t + k) = .dead) ∧
    (∀ m : Nat, ∀ src dlq : List Nat,
      (relocate m (src, dlq)).2 = m :: dlq ∨ (relocate m (src, dlq)).2 = dlq) ∧
    (∀ m : Nat, ∀ src dlq : List Nat, src.count m ≤ 1 →
      relocate m (relocate m (src, dlq)) = relocate m (src, dlq)) := by
  refine ⟨rfl, rfl, ?_, ?_, ?_⟩
  · intro cfg _ σ htr t h k
    exact dead_forever cfg σ htr t h k
  · intro m src dlq
    by_cases hm : m ∈ src
    · left; simp [relocate, hm]
    · right; simp [relocate, hm]
  · intro m src dlq hc
    exact relocate_idempotent m src dlq hc

theorem claimC8_witness :
    relocate 7 (relocate 7 ([7, 9], [3])) = relocate 7 ([7, 9], [3]) :=
  claimC8_dlq_append_only.2.2.2.2 7 [7, 9] [3] (by decide)

/-- Principals appearing in the IAM wiring of the stacks. -/
inductive Principal where
  | scraperFunction
  | nlpFunction
  | eventsService
deriving DecidableEq, Repr

/-- Principals granted SendMessage into the nlp queue by the constructed NLP
stack: the NLP worker itself through grantSendMessages (src/unnamed/part_000
line 69) and the EventBridge service principal through the queue resource
policy (src/unnamed/part_000 lines 93-98). -/
def nlpStackQueueSendGrants : List Principal := [.nlpFunction, .eventsService]

/-- The consumer of the nlp queue: the NLP worker, wired by addEventSource in
src/unnamed/part_000 lines 101-105. -/
def nlpQueueConsumer : Principal := .nlpFunction

/-- An IAM policy statement granting actions on a resource pattern. -/
structure EventBridgeRulePolicyConfig where
  actions : List String
  resourcePattern : String
deriving DecidableEq, Repr

/-- The EventBridge rule-management policy attached to the NLP worker role,
from src/unnamed/part_000 lines 72-89. -/
def eventBridgeRulePolicy : EventBridgeRulePolicyConfig :=
  { actions :=
      ["events:PutRule", "events:DeleteRule", "events:PutTargets",
       "events:RemoveTargets", "events:ListRules", "events:ListTargetsByRule",
       "events:DescribeRule"]
    resourcePattern := "policy-reduce-batch-check-*" }

/-- Modelled from the spec: the control flow is Scheduler, then scraper-queue,
then Scraper Worker, then nlp-queue, then NLP Worker; the only producer into
the nlp-queue named by the spec is the Scraper Worker. -/
def specNlpQueueProducers : List Principal := [.scraperFunction]

/-- Claim C9: the constructed NLP stack grants the NLP worker itself
permission to send messages into the very queue it consumes from, grants it
permission to create and delete EventBridge rules named
policy-reduce-batch-check-*, and grants the EventBridge service principal
permission to send into the nlp queue; every such granted sender is absent
from the producer set of the control flow described by the spec. -/
theorem claimC9_self_reenqueue_grants :
    nlpQueueConsumer ∈ nlpStackQueueSendGrants ∧
    "events:PutRule" ∈ eventBridgeRulePolicy.actions ∧
    "events:DeleteRule" ∈ eventBridgeRulePolicy.actions ∧
    eventBridgeRulePolicy.resourcePattern = "policy-reduce-batch-check-*" ∧
    Principal.eventsService ∈ nlpStackQueueSendGrants ∧
    (∀ p ∈ nlpStackQueueSendGrants, p ∉ specNlpQueueProducers) := by
  refine ⟨by decide, by decide, by decide, rfl, by decide, ?_⟩
  intro p hp
  fin_cases hp <;> decide

theorem claimC9_witness :
    Principal.nlpFunction ∉ specNlpQueueProducers :=
  claimC9_self_reenqueue_grants.2.2.2.2.2 Principal.nlpFunction (by decide)

/-- The visibility deadline granted by a receive at the given time. -/
def leaseDeadline (cfg : QueueConfig) (receiveTime : Nat) : Nat :=
  receiveTime + cfg.visibilityTimeoutSeconds

/-- Claim C10: the visibility timeout of the nlp queue (60*15 seconds, 15
minutes) exactly equals the maximum execution time of the NLP worker (15
minutes), a zero margin, while the visibility timeout of the scraper queue
(60*30 seconds) is exactly twice the maximum execution time of the scraper
worker; consequently a maximal-length NLP run ends exactly at the lease
deadline, for every receive time. -/
theorem claimC10_zero_visibility_margin :
    nlpSQSQueue.visibilityTimeoutSeconds = 60 * 15 ∧
    PolicyReduceNlpFunction.timeoutSeconds = 15 * 60 ∧
    nlpSQSQueue.visibilityTimeoutSeconds = PolicyReduceNlpFunction.timeoutSeconds ∧
    nlpSQSQueue.visibilityTimeoutSeconds - PolicyReduceNlpFunction.timeoutSeconds = 0 ∧
    scraperSQSQueue.visibilityTimeoutSeconds = 60 * 30 ∧
    PolicyReduceScraperFunction.timeoutSeconds = 15 * 60 ∧
    scraperSQSQueue.visibilityTimeoutSeconds =
      2 * PolicyReduceScraperFunction.timeoutSeconds ∧
    (∀ receiveTime, leaseDeadline nlpSQSQueue receiveTime =
      receiveTime + PolicyReduceNlpFunction.timeoutSeconds) := by
  refine ⟨rfl, rfl, by decide, by decide, rfl, rfl, by decide, ?_⟩
  intro receiveTime
  rfl

theorem claimC10_witness :
    leaseDeadline nlpSQSQueue 0 = 0 + PolicyReduceNlpFunction.timeoutSeconds :=
  claimC10_zero_visibility_margin.2.2.2.2.2.2.2 0

end PolicyReduce
